import Mathlib

/-!
Verification of the target-resolution and scan-orchestration logic of the
`scanGithubEnterprise` command (src/cmd/scanGithubEnterprise.go).

The `Run` function of the command is straight-line sequential Go code that,
after session construction and credential resolution, inspects the three
optional target sets (`UserLogins`, `UserOrgs`, `UserRepos`), invokes the
required gatherers in order, then unconditionally runs the analysis engine,
finishes the session, prints statistics, and, only when not silent, prints a
notice and blocks forever.

We embed `Run` as a function producing the sequence of observable calls
(the trace).  Since the Go control flow is single-threaded and each call
returns before the next one starts, full completion of a call before the
next call starts is exactly adjacency/ordering in this trace.  A target set
is modelled as `Option (List String)`: `none` is Go `nil` (the code only
ever tests nil-ness of the three target sets).
-/

namespace Wraith

/-- The observable calls made by `scanGithubEnterpriseCmd.Run`, in program
order (src/cmd/scanGithubEnterprise.go lines 47-84). -/
inductive Event where
  | gatherUsers
  | gatherOrgs
  | gatherGithubOrgRepositories
  | getGithubRepositoriesFromOwner
  | errorNoOwner
  | analyzeRepositories
  | finishSession
  | printSessionStats
  | pressCtrlCNotice
  | blockForever
deriving DecidableEq, Repr

/-- The fields of `core.Session` that `Run` branches on.  `none` models a
Go `nil` slice (the code tests only nil-ness of the three target sets). -/
structure Session where
  userLogins : Option (List String)
  userOrgs : Option (List String)
  userRepos : Option (List String)
  silent : Bool
  githubAccessToken : String
deriving DecidableEq, Repr

/-- First block of `Run` (lines 47-52): if `UserLogins != nil` and both
`UserOrgs == nil` and `UserRepos == nil`, call `core.GatherUsers`. -/
def loginBranch (s : Session) : List Event :=
  if s.userLogins.isSome then
    if !s.userOrgs.isSome && !s.userRepos.isSome then [Event.gatherUsers] else []
  else []

/-- Second block of `Run` (lines 54-59): if `UserOrgs != nil` and both
`UserLogins == nil` and `UserRepos == nil`, call `core.GatherOrgs`. -/
def orgBranch (s : Session) : List Event :=
  if s.userOrgs.isSome then
    if !s.userLogins.isSome && !s.userRepos.isSome then [Event.gatherOrgs] else []
  else []

/-- Third block of `Run` (lines 62-72): if `UserRepos != nil`, then if
`UserOrgs != nil` call `GatherOrgs` then `GatherGithubOrgRepositories`;
else if `UserLogins != nil` call `GatherUsers` then
`GetGithubRepositoriesFromOwner`; else print the error message
"You need to specify an org or user that contains the repo(s)." -/
def repoBranch (s : Session) : List Event :=
  if s.userRepos.isSome then
    if s.userOrgs.isSome then
      [Event.gatherOrgs, Event.gatherGithubOrgRepositories]
    else if s.userLogins.isSome then
      [Event.gatherUsers, Event.getGithubRepositoriesFromOwner]
    else
      [Event.errorNoOwner]
  else []

/-- All resolver-stage calls of `Run`, in program order. -/
def resolverEvents (s : Session) : List Event :=
  loginBranch s ++ orgBranch s ++ repoBranch s

/-- Trailing behavior of `Run` (lines 79-83): only when `!sess.Silent` does
the code print the Ctrl+C notice and block forever on `select {}` —
both are inside the same `if !sess.Silent` body. -/
def trailingEvents (s : Session) : List Event :=
  if !s.silent then [Event.pressCtrlCNotice, Event.blockForever] else []

/-- The full observable trace of `Run` after credential resolution:
resolver blocks, then unconditionally `core.AnalyzeRepositories`,
`sess.Finish`, `core.PrintSessionStats` (lines 74-77), then the trailing
block. -/
def runTrace (s : Session) : List Event :=
  resolverEvents s
    ++ [Event.analyzeRepositories, Event.finishSession, Event.printSessionStats]
    ++ trailingEvents s

/-- The events that are gatherer invocations (network calls of the
resolution stage). -/
def isGatherEvent : Event → Bool
  | Event.gatherUsers => true
  | Event.gatherOrgs => true
  | Event.gatherGithubOrgRepositories => true
  | Event.getGithubRepositoriesFromOwner => true
  | _ => false

/-- The five strategies of the Target Resolver. -/
inductive Branch where
  | byLogin
  | byOrg
  | orgThenRepo
  | loginThenRepo
  | invalid
deriving DecidableEq, Repr

/-- Which of the five branches fire on a given session, read off the guard
conditions of the three blocks of `Run` (lines 47-72): `byLogin` when
logins only; `byOrg` when orgs only; with repos present, `orgThenRepo`
when orgs present, else `loginThenRepo` when logins present, else the
error branch. -/
def selectedBranches (s : Session) : List Branch :=
  (if s.userLogins.isSome && !s.userOrgs.isSome && !s.userRepos.isSome then
    [Branch.byLogin] else [])
  ++ (if s.userOrgs.isSome && !s.userLogins.isSome && !s.userRepos.isSome then
    [Branch.byOrg] else [])
  ++ (if s.userRepos.isSome && s.userOrgs.isSome then
    [Branch.orgThenRepo] else [])
  ++ (if s.userRepos.isSome && !s.userOrgs.isSome && s.userLogins.isSome then
    [Branch.loginThenRepo] else [])
  ++ (if s.userRepos.isSome && !s.userOrgs.isSome && !s.userLogins.isSome then
    [Branch.invalid] else [])

/-- A viper configuration: a string-keyed store of string values.
`GetString` on a missing key returns the empty string. -/
abbrev Config := List (String × String)

/-- Viper `GetString`: the stored value, or `""` when the key is unset. -/
def getString (c : Config) (key : String) : String :=
  match c.lookup key with
  | some v => v
  | none => ""

/-- The viper key the `--github-enterprise-api-token` flag is bound to by
`init` (src/cmd/scanGithubEnterprise.go: `BindPFlag` of
`github-enterprise-api-token`). -/
def tokenFlagKey : String := "github-enterprise-api-token"

/-- The viper key `Run` actually reads the token from
(src/cmd/scanGithubEnterprise.go line 35:
`viperScanGithubEnterprise.GetString("github-api-token")`). -/
def tokenKeyRead : String := "github-api-token"

/-- Result of credential resolution: the token stored on the session,
whether degraded (public-only) mode was recorded, and whether the
informational notice was emitted. -/
structure CredResult where
  token : String
  degraded : Bool
  notice : Bool
deriving DecidableEq, Repr

/-- Modelled from the spec: `core.CheckGithubAPIToken` is not under src/
(only its caller at src/cmd/scanGithubEnterprise.go line 35 is).  Per the
spec (section 4.1): if the token string is non-empty, accept it as-is; if
empty, record degraded (public-only) mode on the Session and emit an
informational notice, without failing. -/
def CheckGithubAPIToken (t : String) : CredResult :=
  if t = "" then { token := "", degraded := true, notice := true }
  else { token := t, degraded := false, notice := false }

/-- The session access token as computed by `Run` line 35:
`CheckGithubAPIToken(viper.GetString("github-api-token"), sess)`. -/
def resolveSessionToken (c : Config) : String :=
  (CheckGithubAPIToken (getString c tokenKeyRead)).token

/-- Timing fields of `core.Session.Stats`, timestamps as naturals. -/
structure Stats where
  startedAt : Nat
  finishedAt : Option Nat
deriving DecidableEq, Repr

/-- Modelled from the spec: `core.NewSession` is not under src/ (only its
caller is).  Per the spec (section 3), `startedAt` is set at session
construction and `finishedAt` is unset until `finish`. -/
def newSessionStats (t0 : Nat) : Stats :=
  { startedAt := t0, finishedAt := none }

/-- Modelled from the spec: `core.Session.Finish` is not under src/ (only
its caller at src/cmd/scanGithubEnterprise.go line 75 is).  Per the spec
(sections 3 and 4.3), `finish` stops the timer, setting `finishedAt`, and
`finishedAt` is set at most once. -/
def finishStats (st : Stats) (t1 : Nat) : Stats :=
  match st.finishedAt with
  | some _ => st
  | none => { st with finishedAt := some t1 }

/-! Helper lemmas shared by the claim theorems. -/

/-- Only the notice and the blocking wait ever occur in the trailing block. -/
lemma not_mem_trailing (s : Session) (e : Event)
    (h1 : e ≠ Event.pressCtrlCNotice) (h2 : e ≠ Event.blockForever) :
    e ∉ trailingEvents s := by
  cases hs : s.silent <;> simp [trailingEvents, hs, h1, h2]

/-- The resolver stage never emits the finish event. -/
lemma finish_not_mem_resolver (s : Session) :
    Event.finishSession ∉ resolverEvents s := by
  cases hL : s.userLogins.isSome <;> cases hO : s.userOrgs.isSome <;>
    cases hR : s.userRepos.isSome <;>
    simp [resolverEvents, loginBranch, orgBranch, repoBranch, hL, hO, hR]

/-! Concrete sessions used as inputs of counterexamples and witnesses. -/

/-- Session shape of spec scenario 3: repositories only, no owner context. -/
def reposOnlySession : Session :=
  { userLogins := none, userOrgs := none, userRepos := some ["widget"],
    silent := false, githubAccessToken := "" }

/-- A silent session with a single login target. -/
def silentSession : Session :=
  { userLogins := some ["alice"], userOrgs := none, userRepos := none,
    silent := true, githubAccessToken := "t" }

/-- Logins and organizations both non-empty, repositories empty. -/
def ambiguousSession : Session :=
  { userLogins := some ["alice"], userOrgs := some ["acme"],
    userRepos := none, silent := false, githubAccessToken := "" }

/-- Organizations and repositories non-empty, logins empty. -/
def orgRepoSession : Session :=
  { userLogins := none, userOrgs := some ["acme"],
    userRepos := some ["widget"], silent := true, githubAccessToken := "" }

/-- Logins and repositories non-empty, organizations empty. -/
def loginRepoSession : Session :=
  { userLogins := some ["alice"], userOrgs := none,
    userRepos := some ["widget"], silent := false, githubAccessToken := "" }

/-- All three target sets non-empty. -/
def allThreeSession : Session :=
  { userLogins := some ["alice"], userOrgs := some ["acme"],
    userRepos := some ["widget"], silent := false, githubAccessToken := "" }

/-- A tokenless session with a single login target (spec scenario 4). -/
def emptyTokenSession : Session :=
  { userLogins := some ["bob"], userOrgs := none, userRepos := none,
    silent := false, githubAccessToken := "" }

/-! Claim C1. -/

/-- Claim C1 counterexample: with repositories = \x7b"widget"\x7d and both
orgs and logins empty, `Run` does reach the analysis stage —
`AnalyzeRepositories` is in the trace after the error message — and instead
of exiting with non-zero status the process proceeds all the way to the
blocking dashboard state. -/
theorem C1_counterexample :
    Event.analyzeRepositories ∈ runTrace reposOnlySession ∧
    Event.errorNoOwner ∈ runTrace reposOnlySession ∧
    Event.blockForever ∈ runTrace reposOnlySession := by
  decide

/-- Claim C1 (amended): if the repositories set is non-empty and both the
organizations set and the logins set are empty, no gatherer is invoked (no
network calls are made) and the configuration error message is printed, but
the process does not exit: execution continues to `AnalyzeRepositories`,
`Finish`, and the stats report, exactly as in a valid run. -/
theorem C1_repos_only_no_gather_but_continues (s : Session)
    (hR : s.userRepos.isSome = true) (hO : s.userOrgs.isSome = false)
    (hL : s.userLogins.isSome = false) :
    runTrace s = Event.errorNoOwner :: Event.analyzeRepositories ::
      Event.finishSession :: Event.printSessionStats :: trailingEvents s ∧
    Event.gatherUsers ∉ runTrace s ∧
    Event.gatherOrgs ∉ runTrace s ∧
    Event.gatherGithubOrgRepositories ∉ runTrace s ∧
    Event.getGithubRepositoriesFromOwner ∉ runTrace s := by
  have t1 := not_mem_trailing s Event.gatherUsers (by decide) (by decide)
  have t2 := not_mem_trailing s Event.gatherOrgs (by decide) (by decide)
  have t3 := not_mem_trailing s Event.gatherGithubOrgRepositories
    (by decide) (by decide)
  have t4 := not_mem_trailing s Event.getGithubRepositoriesFromOwner
    (by decide) (by decide)
  refine ⟨?_, ?_, ?_, ?_, ?_⟩ <;>
    simp [runTrace, resolverEvents, loginBranch, orgBranch, repoBranch,
      hR, hO, hL, t1, t2, t3, t4]

/-- Claim C1 witness: the amended theorem applied to the repositories-only
session. -/
theorem C1_witness :
    runTrace reposOnlySession = Event.errorNoOwner ::
      Event.analyzeRepositories :: Event.finishSession ::
      Event.printSessionStats :: trailingEvents reposOnlySession ∧
    Event.gatherUsers ∉ runTrace reposOnlySession ∧
    Event.gatherOrgs ∉ runTrace reposOnlySession ∧
    Event.gatherGithubOrgRepositories ∉ runTrace reposOnlySession ∧
    Event.getGithubRepositoriesFromOwner ∉ runTrace reposOnlySession :=
  C1_repos_only_no_gather_but_continues reposOnlySession rfl rfl rfl

/-! Claim C3. -/

/-- Claim C3 counterexample: with the silent flag set, the trace contains
neither the Ctrl+C notice nor the indefinite block — the claim that the
process still blocks indefinitely under silent is false. -/
theorem C3_counterexample :
    Event.blockForever ∉ runTrace silentSession ∧
    Event.pressCtrlCNotice ∉ runTrace silentSession := by
  decide

/-- Claim C3 (amended): the silent flag suppresses both the trailing
interactive notice and the indefinite block, since the blocking wait sits
inside the same not-silent conditional as the notice: when silent, `Run`
returns after the stats report; when not silent, the notice is printed and
the process blocks forever. -/
theorem C3_silent_skips_notice_and_block (s : Session) :
    (s.silent = true → runTrace s = resolverEvents s ++
      [Event.analyzeRepositories, Event.finishSession,
       Event.printSessionStats]) ∧
    (s.silent = false → runTrace s = resolverEvents s ++
      [Event.analyzeRepositories, Event.finishSession,
       Event.printSessionStats, Event.pressCtrlCNotice,
       Event.blockForever]) := by
  constructor <;> intro h <;> simp [runTrace, trailingEvents, h]

/-- Claim C3 witness: the amended theorem applied to a silent session. -/
theorem C3_witness :
    runTrace silentSession = resolverEvents silentSession ++
      [Event.analyzeRepositories, Event.finishSession,
       Event.printSessionStats] :=
  (C3_silent_skips_notice_and_block silentSession).1 rfl

/-! Claim C2. -/

/-- Claim C2 (code bug): `init` binds the `--github-enterprise-api-token`
flag to the viper key `github-enterprise-api-token`, but `Run` resolves the
credential by reading the different key `github-api-token`.  On a
configuration carrying the flag value "tok123" under its bound key, the
resolved session access token is `""`, not "tok123": the flag value never
reaches the session. -/
theorem C2_token_key_mismatch :
    tokenFlagKey ≠ tokenKeyRead ∧
    resolveSessionToken [(tokenFlagKey, "tok123")] = "" ∧
    ("tok123" : String) ≠ "" := by
  refine ⟨?_, ?_, ?_⟩ <;> decide

/-! Claim C4. -/

/-- Claim C4 counterexample: with logins and organizations both non-empty
and repositories empty, none of the five branches fires, refuting that
every combination selects exactly one branch. -/
theorem C4_counterexample :
    selectedBranches ambiguousSession = [] := by
  decide

/-- Claim C4 (amended): every combination of the three target sets selects
at most one of the five branches; a combination selects none exactly when
repositories is empty and the logins and organizations sets are both empty
or both non-empty; the repositories-only-with-no-owner combination always
selects the invalid branch and prints the configuration error message. -/
theorem C4_at_most_one_branch (s : Session) :
    (selectedBranches s).length ≤ 1 ∧
    (selectedBranches s = [] ↔
      (s.userRepos.isSome = false ∧
        s.userLogins.isSome = s.userOrgs.isSome)) ∧
    (s.userRepos.isSome = true → s.userOrgs.isSome = false →
      s.userLogins.isSome = false →
      selectedBranches s = [Branch.invalid] ∧
        Event.errorNoOwner ∈ runTrace s) := by
  cases hL : s.userLogins.isSome <;> cases hO : s.userOrgs.isSome <;>
    cases hR : s.userRepos.isSome <;>
    simp [selectedBranches, runTrace, resolverEvents, loginBranch,
      orgBranch, repoBranch, hL, hO, hR]

/-- Claim C4 witness: the amended theorem applied to the repositories-only
session, with the three hypotheses of its last conjunct discharged. -/
theorem C4_witness :
    selectedBranches reposOnlySession = [Branch.invalid] ∧
    Event.errorNoOwner ∈ runTrace reposOnlySession :=
  (C4_at_most_one_branch reposOnlySession).2.2 rfl rfl rfl

/-! Claim C5. -/

/-- Claim C5: in the org-then-repo branch the whole trace begins
`GatherOrgs` then `GatherGithubOrgRepositories`, and in the login-then-repo
branch it begins `GatherUsers` then `GetGithubRepositoriesFromOwner`.  The
trace records the sequential calls of `Run` in program order, each call
returning before the next starts, so the prerequisite gather fully
completes before the dependent gather starts and the two never
interleave. -/
theorem C5_prereq_gather_completes_first (s : Session) :
    (s.userRepos.isSome = true → s.userOrgs.isSome = true →
      runTrace s = Event.gatherOrgs :: Event.gatherGithubOrgRepositories ::
        Event.analyzeRepositories :: Event.finishSession ::
        Event.printSessionStats :: trailingEvents s) ∧
    (s.userRepos.isSome = true → s.userOrgs.isSome = false →
      s.userLogins.isSome = true →
      runTrace s = Event.gatherUsers ::
        Event.getGithubRepositoriesFromOwner ::
        Event.analyzeRepositories :: Event.finishSession ::
        Event.printSessionStats :: trailingEvents s) := by
  constructor
  · intro hR hO
    simp [runTrace, resolverEvents, loginBranch, orgBranch, repoBranch,
      hR, hO]
  · intro hR hO hL
    simp [runTrace, resolverEvents, loginBranch, orgBranch, repoBranch,
      hR, hO, hL]

/-- Claim C5 witness: the theorem applied to the org-and-repo session,
with the hypotheses of its first conjunct discharged. -/
theorem C5_witness :
    runTrace orgRepoSession = Event.gatherOrgs ::
      Event.gatherGithubOrgRepositories :: Event.analyzeRepositories ::
      Event.finishSession :: Event.printSessionStats ::
      trailingEvents orgRepoSession :=
  (C5_prereq_gather_completes_first orgRepoSession).1 rfl rfl

/-! Claim C6. -/

/-- Claim C6: when repositories and logins are non-empty and organizations
is empty, the resolver calls `GatherUsers` first, then
`GetGithubRepositoriesFromOwner`, and no other gatherer: the org-scoped
gatherers never appear in the trace. -/
theorem C6_login_then_repo_path (s : Session)
    (hR : s.userRepos.isSome = true) (hL : s.userLogins.isSome = true)
    (hO : s.userOrgs.isSome = false) :
    runTrace s = Event.gatherUsers ::
      Event.getGithubRepositoriesFromOwner ::
      Event.analyzeRepositories :: Event.finishSession ::
      Event.printSessionStats :: trailingEvents s ∧
    Event.gatherOrgs ∉ runTrace s ∧
    Event.gatherGithubOrgRepositories ∉ runTrace s ∧
    Event.errorNoOwner ∉ runTrace s := by
  have t1 := not_mem_trailing s Event.gatherOrgs (by decide) (by decide)
  have t2 := not_mem_trailing s Event.gatherGithubOrgRepositories
    (by decide) (by decide)
  have t3 := not_mem_trailing s Event.errorNoOwner (by decide) (by decide)
  refine ⟨?_, ?_, ?_, ?_⟩ <;>
    simp [runTrace, resolverEvents, loginBranch, orgBranch, repoBranch,
      hR, hO, hL, t1, t2, t3]

/-- Claim C6 witness: the theorem applied to the login-and-repo session. -/
theorem C6_witness :
    runTrace loginRepoSession = Event.gatherUsers ::
      Event.getGithubRepositoriesFromOwner ::
      Event.analyzeRepositories :: Event.finishSession ::
      Event.printSessionStats :: trailingEvents loginRepoSession ∧
    Event.gatherOrgs ∉ runTrace loginRepoSession ∧
    Event.gatherGithubOrgRepositories ∉ runTrace loginRepoSession ∧
    Event.errorNoOwner ∉ runTrace loginRepoSession :=
  C6_login_then_repo_path loginRepoSession rfl rfl rfl

/-! Claim C7. -/

/-- Claim C7: when the configured token string is empty, the credential
resolver records degraded (public-only) mode, emits the informational
notice, and does not fail: `Run` continues unconditionally, so the analysis
stage, session finish and stats report all still occur in the trace. -/
theorem C7_empty_token_degrades_no_abort (s : Session)
    (h : s.githubAccessToken = "") :
    (CheckGithubAPIToken s.githubAccessToken).degraded = true ∧
    (CheckGithubAPIToken s.githubAccessToken).notice = true ∧
    Event.analyzeRepositories ∈ runTrace s ∧
    Event.finishSession ∈ runTrace s ∧
    Event.printSessionStats ∈ runTrace s := by
  refine ⟨?_, ?_, ?_, ?_, ?_⟩ <;> simp [CheckGithubAPIToken, h, runTrace]

/-- Claim C7 witness: the theorem applied to the tokenless session of spec
scenario 4. -/
theorem C7_witness :
    (CheckGithubAPIToken emptyTokenSession.githubAccessToken).degraded =
      true ∧
    (CheckGithubAPIToken emptyTokenSession.githubAccessToken).notice =
      true ∧
    Event.analyzeRepositories ∈ runTrace emptyTokenSession ∧
    Event.finishSession ∈ runTrace emptyTokenSession ∧
    Event.printSessionStats ∈ runTrace emptyTokenSession :=
  C7_empty_token_degrades_no_abort emptyTokenSession rfl

/-! Claim C8. -/

/-- Claim C8: `finishedAt` is unset at session construction, set by
`Finish` to the finish time, which under a monotone clock is at least
`startedAt`; a second `Finish` does not change it (set exactly once); and
in the trace of `Run` the finish event occurs exactly once, directly after
`AnalyzeRepositories` has completed and before `PrintSessionStats`. -/
theorem C8_finish_once_after_start (s : Session) (t0 t1 t2 : Nat)
    (hmono : t0 ≤ t1) :
    (newSessionStats t0).finishedAt = none ∧
    (finishStats (newSessionStats t0) t1).finishedAt = some t1 ∧
    (finishStats (newSessionStats t0) t1).startedAt ≤ t1 ∧
    finishStats (finishStats (newSessionStats t0) t1) t2 =
      finishStats (newSessionStats t0) t1 ∧
    (runTrace s).count Event.finishSession = 1 ∧
    runTrace s = resolverEvents s ++ Event.analyzeRepositories ::
      Event.finishSession :: Event.printSessionStats ::
      trailingEvents s ∧
    Event.finishSession ∉ resolverEvents s ∧
    Event.finishSession ∉ trailingEvents s := by
  have hres := finish_not_mem_resolver s
  have htr := not_mem_trailing s Event.finishSession (by decide) (by decide)
  have hc1 : (resolverEvents s).count Event.finishSession = 0 :=
    List.count_eq_zero.mpr hres
  have hc2 : (trailingEvents s).count Event.finishSession = 0 :=
    List.count_eq_zero.mpr htr
  refine ⟨rfl, rfl, hmono, rfl, ?_, ?_, hres, htr⟩
  · simp [runTrace, List.count_append, List.count_cons, hc1, hc2]
  · simp [runTrace]

/-- Claim C8 witness: the theorem applied to the org-and-repo session with
construction time 0, finish time 1 and a later second finish at 5. -/
theorem C8_witness :
    (newSessionStats 0).finishedAt = none ∧
    (finishStats (newSessionStats 0) 1).finishedAt = some 1 ∧
    (finishStats (newSessionStats 0) 1).startedAt ≤ 1 ∧
    finishStats (finishStats (newSessionStats 0) 1) 5 =
      finishStats (newSessionStats 0) 1 ∧
    (runTrace orgRepoSession).count Event.finishSession = 1 ∧
    runTrace orgRepoSession = resolverEvents orgRepoSession ++
      Event.analyzeRepositories :: Event.finishSession ::
      Event.printSessionStats :: trailingEvents orgRepoSession ∧
    Event.finishSession ∉ resolverEvents orgRepoSession ∧
    Event.finishSession ∉ trailingEvents orgRepoSession :=
  C8_finish_once_after_start orgRepoSession 0 1 5 (by decide)

/-! Claim C9. -/

/-- Claim C9: when logins and organizations are both non-empty and
repositories is empty, no gather branch fires and no error is reported:
the resolver stage is empty and the run proceeds directly to
`AnalyzeRepositories` with nothing resolved. -/
theorem C9_both_owners_no_repos_silent_skip (s : Session)
    (hL : s.userLogins.isSome = true) (hO : s.userOrgs.isSome = true)
    (hR : s.userRepos.isSome = false) :
    resolverEvents s = [] ∧
    runTrace s = Event.analyzeRepositories :: Event.finishSession ::
      Event.printSessionStats :: trailingEvents s ∧
    Event.errorNoOwner ∉ runTrace s := by
  have t1 := not_mem_trailing s Event.errorNoOwner (by decide) (by decide)
  refine ⟨?_, ?_, ?_⟩ <;>
    simp [runTrace, resolverEvents, loginBranch, orgBranch, repoBranch,
      hL, hO, hR, t1]

/-- Claim C9 witness: the theorem applied to the session with both logins
and organizations set and no repositories. -/
theorem C9_witness :
    resolverEvents ambiguousSession = [] ∧
    runTrace ambiguousSession = Event.analyzeRepositories ::
      Event.finishSession :: Event.printSessionStats ::
      trailingEvents ambiguousSession ∧
    Event.errorNoOwner ∉ runTrace ambiguousSession :=
  C9_both_owners_no_repos_silent_skip ambiguousSession rfl rfl rfl

/-! Claim C10. -/

/-- Claim C10: whenever repositories and organizations are both non-empty
the org-scoped path runs — `GatherOrgs` then
`GatherGithubOrgRepositories` — and the logins set is ignored:
`GatherUsers` and `GetGithubRepositoriesFromOwner` never appear in the
trace, whatever the logins set holds. -/
theorem C10_org_path_ignores_logins (s : Session)
    (hR : s.userRepos.isSome = true) (hO : s.userOrgs.isSome = true) :
    runTrace s = Event.gatherOrgs :: Event.gatherGithubOrgRepositories ::
      Event.analyzeRepositories :: Event.finishSession ::
      Event.printSessionStats :: trailingEvents s ∧
    Event.gatherUsers ∉ runTrace s ∧
    Event.getGithubRepositoriesFromOwner ∉ runTrace s := by
  have t1 := not_mem_trailing s Event.gatherUsers (by decide) (by decide)
  have t2 := not_mem_trailing s Event.getGithubRepositoriesFromOwner
    (by decide) (by decide)
  refine ⟨?_, ?_, ?_⟩ <;>
    simp [runTrace, resolverEvents, loginBranch, orgBranch, repoBranch,
      hR, hO, t1, t2]

/-- Claim C10 witness: the theorem applied to the session with all three
target sets non-empty, the logins set included. -/
theorem C10_witness :
    runTrace allThreeSession = Event.gatherOrgs ::
      Event.gatherGithubOrgRepositories :: Event.analyzeRepositories ::
      Event.finishSession :: Event.printSessionStats ::
      trailingEvents allThreeSession ∧
    Event.gatherUsers ∉ runTrace allThreeSession ∧
    Event.getGithubRepositoriesFromOwner ∉ runTrace allThreeSession :=
  C10_org_path_ignores_logins allThreeSession rfl rfl

end Wraith
